import Mathlib

/-!
Verification of the carrier-integration service (UPS rate shopping pipeline):
a shallow embedding of the token cache (`auth/ups-oauth.ts`), the wire mapper
and rate client (`carriers/ups/ups-rate.ts`), the dispatcher's error wrapping
(`service.js`), and the domain validation (`domain.js`), with theorems about
the caching, parsing, numeric-safety and error-normalization behaviour.

JavaScript numbers are modelled as `ℚ` (the payloads in scope are finite
decimals); `NaN` results of `parseFloat`/`parseInt` are modelled as `none`.
Fallible operations return `Option`/`Except`.
-/

namespace CarrierSpec

/-! ## JS primitive models

`jsParseFloat`/`jsParseInt` model the fragment of JavaScript's
`parseFloat`/`parseInt(·, 10)` exercised by the rate payloads: leading
whitespace, an optional sign, a decimal-digit prefix and (for `parseFloat`) an
optional fraction.  A string with no digit prefix yields `NaN` in JS, modelled
as `none`. -/

def dropWs (cs : List Char) : List Char := cs.dropWhile Char.isWhitespace

/-- Longest digit prefix of a character list, together with the remainder. -/
def spanDigits : List Char → List Char × List Char
  | [] => ([], [])
  | c :: cs =>
    if c.isDigit then
      let r := spanDigits cs
      (c :: r.1, r.2)
    else ([], c :: cs)

/-- Value of a digit string, most significant digit first. -/
def digitsToNat (ds : List Char) : Nat :=
  ds.foldl (fun a c => a * 10 + (c.toNat - 48)) 0

/-- Consume an optional leading sign; returns (isNegative, rest). -/
def splitSign : List Char → Bool × List Char
  | '-' :: rest => (true, rest)
  | '+' :: rest => (false, rest)
  | cs => (false, cs)

/-- Digits of the fractional part, when the remainder starts with a dot. -/
def jsFracDigits : List Char → List Char
  | '.' :: rest => (spanDigits rest).1
  | _ => []

/-- Magnitude denoted by an integer digit list and a fraction digit list. -/
def jsMagnitude (intDs fracDs : List Char) : ℚ :=
  (digitsToNat intDs : ℚ) + (digitsToNat fracDs : ℚ) / ((10 : ℚ) ^ fracDs.length)

/-- Model of JS `parseFloat` on the decimal strings in scope. -/
def jsParseFloat (s : String) : Option ℚ :=
  let sp := splitSign (dropWs s.data)
  let intPart := spanDigits sp.2
  let fracDs := jsFracDigits intPart.2
  if intPart.1.isEmpty && fracDs.isEmpty then none
  else some (if sp.1 then -(jsMagnitude intPart.1 fracDs) else jsMagnitude intPart.1 fracDs)

/-- Model of JS `parseInt(s, 10)`. -/
def jsParseInt (s : String) : Option Int :=
  let sp := splitSign (dropWs s.data)
  let ds := (spanDigits sp.2).1
  if ds.isEmpty then none
  else some (if sp.1 then -(digitsToNat ds : Int) else (digitsToNat ds : Int))

/-- Whether the first non-whitespace character of `s` is a minus sign. -/
def hasLeadingMinus (s : String) : Bool := (splitSign (dropWs s.data)).1

def listStartsWith : List Char → List Char → Bool
  | _, [] => true
  | [], _ :: _ => false
  | a :: as, b :: bs => a == b && listStartsWith as bs

def listContainsSeq : List Char → List Char → Bool
  | [], needle => needle.isEmpty
  | hay@(_ :: rest), needle => listStartsWith hay needle || listContainsSeq rest needle

/-- Model of JS `String.prototype.includes`. -/
def strContains (s sub : String) : Bool := listContainsSeq s.data sub.data

/-! ## JSON values

Bodies crossing the transport interface are parsed JSON.  JS `undefined` for
an object member is modelled as the key being absent. -/

inductive Json where
  | null
  | bool (b : Bool)
  | num (q : ℚ)
  | str (s : String)
  | arr (elements : List Json)
  | obj (fields : List (String × Json))

def lookupPair {α : Type} : List (String × α) → String → Option α
  | [], _ => none
  | (k, v) :: rest, key => if k = key then some v else lookupPair rest key

/-- Member access on a JSON object; `none` models `undefined` (also the
result of optional chaining through a non-object). -/
def Json.getField : Json → String → Option Json
  | .obj fields, key => lookupPair fields key
  | _, _ => none

def Json.asString : Json → Option String
  | .str s => some s
  | _ => none

/-- Validate an optional object member: absent is fine, present must satisfy
the member validator (zod `.optional()`). -/
def optField {α : Type} (j : Json) (key : String) (p : Json → Option α) :
    Option (Option α) :=
  match j.getField key with
  | none => some none
  | some v =>
    match p v with
    | some x => some (some x)
    | none => none

/-- `Option`-valued traversal of a list (zod `z.array(schema)`): every element
must validate, results in order. -/
def optMapList {α β : Type} (f : α → Option β) : List α → Option (List β)
  | [] => some []
  | x :: xs =>
    match f x, optMapList f xs with
    | some y, some ys => some (y :: ys)
    | _, _ => none

/-! ## Error model (`errors.ts`) -/

inductive ErrorCode where
  | VALIDATION_ERROR
  | AUTH_FAILED
  | AUTH_TOKEN_EXPIRED
  | RATE_LIMITED
  | NETWORK_ERROR
  | TIMEOUT
  | CARRIER_ERROR
  | MALFORMED_RESPONSE
  | UNKNOWN
deriving DecidableEq

/-- `CarrierIntegrationError` from `errors.ts`.  The `cause` member and the
zod issue lists attached to some contexts are diagnostic payload not touched
by any claim and are not modelled; `context` keeps the JSON-valued entries the
code attaches. -/
structure CarrierIntegrationError where
  code : ErrorCode
  message : String
  statusCode : Option Nat
  carrierCode : Option String
  context : List (String × Json)

/-! ## Domain model (`domain.js`) -/

structure RateQuote where
  carrier : String
  serviceCode : String
  serviceName : String
  totalCharge : ℚ
  currencyCode : String
  transitDays : Option Int
  carrierServiceId : Option String
deriving DecidableEq

structure RateResponse where
  quotes : List RateQuote
  requestId : Option String
deriving DecidableEq

/-- Output type of `PackageSchema` (zod defaults applied). -/
structure Package where
  weight : ℚ
  weightUnit : String
  length : Option ℚ
  width : Option ℚ
  height : Option ℚ
  dimensionUnit : String
deriving DecidableEq

/-- zod `z.number().positive().optional()` member validation. -/
def posNumField (j : Json) (key : String) : Option (Option ℚ) :=
  match j.getField key with
  | none => some none
  | some (.num q) => if 0 < q then some (some q) else none
  | some _ => none

/-- zod `z.enum(allowed).default(defaultValue)` member validation. -/
def enumFieldWithDefault (j : Json) (key : String) (allowed : List String)
    (defaultValue : String) : Option String :=
  match j.getField key with
  | none => some defaultValue
  | some (.str s) => if s ∈ allowed then some s else none
  | some _ => none

/-- `PackageSchema` from `domain.js`: weight required positive, units are
enums with defaults, each of length/width/height independently optional
positive. -/
def PackageSchema (j : Json) : Option Package :=
  match j with
  | .obj _ => do
    let weight ←
      match j.getField "weight" with
      | some (.num q) => if 0 < q then some q else none
      | _ => none
    let weightUnit ← enumFieldWithDefault j "weightUnit" ["LBS", "KGS"] "LBS"
    let length ← posNumField j "length"
    let width ← posNumField j "width"
    let height ← posNumField j "height"
    let dimensionUnit ← enumFieldWithDefault j "dimensionUnit" ["IN", "CM"] "IN"
    some { weight, weightUnit, length, width, height, dimensionUnit }
  | _ => none

/-! ## UPS wire schema (`carriers/ups/ups-rate.ts`)

Parsed forms of the zod schemas `UpsRatedShipmentSchema` and
`UpsRateResponseSchema`; the validators below follow the zod declarations
member by member (every member optional, strings must be strings, arrays must
be arrays of validating elements). -/

structure UpsService where
  Code : Option String
  Name : Option String
deriving DecidableEq

structure UpsTotalCharges where
  MonetaryValue : Option String
  CurrencyCode : Option String
deriving DecidableEq

structure UpsGuaranteedDelivery where
  BusinessDaysInTransit : Option String
deriving DecidableEq

structure UpsRatedShipment where
  Service : Option UpsService
  TotalCharges : Option UpsTotalCharges
  GuaranteedDelivery : Option UpsGuaranteedDelivery
deriving DecidableEq

structure UpsResponseStatus where
  Code : Option String
  Description : Option String
deriving DecidableEq

structure UpsResponse where
  ResponseStatus : Option UpsResponseStatus
deriving DecidableEq

structure UpsRateResponseBody where
  Response : Option UpsResponse
  RatedShipment : Option (List UpsRatedShipment)
deriving DecidableEq

structure UpsRateResponseTop where
  RateResponse : Option UpsRateResponseBody
deriving DecidableEq

def upsServiceSchema (j : Json) : Option UpsService :=
  match j with
  | .obj _ => do
    let code ← optField j "Code" Json.asString
    let name ← optField j "Name" Json.asString
    some { Code := code, Name := name }
  | _ => none

def upsTotalChargesSchema (j : Json) : Option UpsTotalCharges :=
  match j with
  | .obj _ => do
    let monetaryValue ← optField j "MonetaryValue" Json.asString
    let currencyCode ← optField j "CurrencyCode" Json.asString
    some { MonetaryValue := monetaryValue, CurrencyCode := currencyCode }
  | _ => none

def upsGuaranteedDeliverySchema (j : Json) : Option UpsGuaranteedDelivery :=
  match j with
  | .obj _ => do
    let days ← optField j "BusinessDaysInTransit" Json.asString
    some { BusinessDaysInTransit := days }
  | _ => none

def UpsRatedShipmentSchema (j : Json) : Option UpsRatedShipment :=
  match j with
  | .obj _ => do
    let service ← optField j "Service" upsServiceSchema
    let totalCharges ← optField j "TotalCharges" upsTotalChargesSchema
    let guaranteedDelivery ← optField j "GuaranteedDelivery" upsGuaranteedDeliverySchema
    some { Service := service, TotalCharges := totalCharges,
           GuaranteedDelivery := guaranteedDelivery }
  | _ => none

def upsResponseStatusSchema (j : Json) : Option UpsResponseStatus :=
  match j with
  | .obj _ => do
    let code ← optField j "Code" Json.asString
    let description ← optField j "Description" Json.asString
    some { Code := code, Description := description }
  | _ => none

def upsResponseSchema (j : Json) : Option UpsResponse :=
  match j with
  | .obj _ => do
    let status ← optField j "ResponseStatus" upsResponseStatusSchema
    some { ResponseStatus := status }
  | _ => none

def upsRatedShipmentArraySchema (j : Json) : Option (List UpsRatedShipment) :=
  match j with
  | .arr xs => optMapList UpsRatedShipmentSchema xs
  | _ => none

def upsRateResponseBodySchema (j : Json) : Option UpsRateResponseBody :=
  match j with
  | .obj _ => do
    let response ← optField j "Response" upsResponseSchema
    let ratedShipment ← optField j "RatedShipment" upsRatedShipmentArraySchema
    some { Response := response, RatedShipment := ratedShipment }
  | _ => none

def UpsRateResponseSchema (j : Json) : Option UpsRateResponseTop :=
  match j with
  | .obj _ => do
    let rateResponse ← optField j "RateResponse" upsRateResponseBodySchema
    some { RateResponse := rateResponse }
  | _ => none

/-! ## UPS wire mapper: response side (`parseUpsRateResponse`) -/

/-- `UPS_SERVICE_NAMES` lookup table from `ups-rate.ts`. -/
def UPS_SERVICE_NAMES : List (String × String) :=
  [("01", "Next Day Air"), ("02", "2nd Day Air"), ("03", "Ground"),
   ("07", "Worldwide Express"), ("08", "Worldwide Expedited"), ("11", "Standard"),
   ("12", "3 Day Select"), ("13", "Next Day Air Saver"), ("14", "Next Day Air Early"),
   ("54", "Worldwide Express Plus"), ("59", "2nd Day Air A.M."),
   ("65", "Worldwide Saver"), ("70", "Worldwide Express Sprint"),
   ("71", "Worldwide Express Sprint Plus"), ("96", "Worldwide Express Freight"),
   ("M2", "First Class Mail"), ("M3", "Priority Mail"),
   ("M4", "Expedited Mail Innovations"), ("M5", "Priority Mail Innovations"),
   ("M6", "Economy Mail Innovations")]

def upsServiceName (code : String) : String :=
  match lookupPair UPS_SERVICE_NAMES code with
  | some n => n
  | none => code

/-- Conversion of one validated rated shipment to a `RateQuote`
(the body of the `ratedShipments.map` in `parseUpsRateResponse`).
The source computes `parseFloat(total)` and then replaces `NaN` by `0`;
with `NaN` modelled as `none` that pair of steps is `(jsParseFloat t).getD 0`,
and likewise the `parseInt`/`isNaN` pair for transit days keeps `none`. -/
def upsQuoteOfShipment (carrierId : String) (s : UpsRatedShipment) : RateQuote :=
  let code := (s.Service.bind UpsService.Code).getD "UNKNOWN"
  let total := s.TotalCharges.bind UpsTotalCharges.MonetaryValue
  let currency := (s.TotalCharges.bind UpsTotalCharges.CurrencyCode).getD "USD"
  let transitDays := s.GuaranteedDelivery.bind UpsGuaranteedDelivery.BusinessDaysInTransit
  let totalCharge : ℚ :=
    match total with
    | some t => if t ≠ "" then (jsParseFloat t).getD 0 else 0
    | none => 0
  let transitDaysNum : Option Int :=
    match transitDays with
    | some t => if t ≠ "" then jsParseInt t else none
    | none => none
  { carrier := carrierId
    serviceCode := code
    serviceName := (s.Service.bind UpsService.Name).getD (upsServiceName code)
    totalCharge := totalCharge
    currencyCode := currency
    transitDays := transitDaysNum
    carrierServiceId := some code }

/-- The `status?.Code && status.Code !== "1"` test: the failing carrier status
code, if any (an empty `Code` is falsy in JS and therefore not failing). -/
def failingStatusCode (status : Option UpsResponseStatus) : Option String :=
  match status.bind UpsResponseStatus.Code with
  | some c => if c ≠ "" ∧ c ≠ "1" then some c else none
  | none => none

/-- `parseUpsRateResponse` from `ups-rate.ts`.  The zod issue text that the
source interpolates into the first MALFORMED_RESPONSE message is diagnostic
only and not modelled. -/
def parseUpsRateResponse (body : Json) (carrierId : String) :
    Except CarrierIntegrationError RateResponse :=
  match UpsRateResponseSchema body with
  | none =>
    .error { code := .MALFORMED_RESPONSE
             message := "UPS rate response invalid"
             statusCode := none, carrierCode := none
             context := [("body", body)] }
  | some parsed =>
    match parsed.RateResponse with
    | none =>
      .error { code := .MALFORMED_RESPONSE
               message := "UPS rate response missing RateResponse"
               statusCode := none, carrierCode := none
               context := [("body", body)] }
    | some rateResponse =>
      match failingStatusCode (rateResponse.Response.bind UpsResponse.ResponseStatus) with
      | some c =>
        .error { code := .CARRIER_ERROR
                 message := ((rateResponse.Response.bind UpsResponse.ResponseStatus).bind
                   UpsResponseStatus.Description).getD ("UPS error: " ++ c)
                 statusCode := none
                 carrierCode := some c
                 context := [("body", body)] }
      | none =>
        .ok { quotes := (rateResponse.RatedShipment.getD []).map (upsQuoteOfShipment carrierId)
              requestId := none }

/-! ## UPS rate client (`UpsRateClient.getRates`) -/

/-- `tryGetCarrierErrorCode` from `ups-rate.ts`: best-effort extraction of
`body.response.errors[0].code` when it is a string. -/
def tryGetCarrierErrorCode (body : Json) : Option String :=
  match body.getField "response" with
  | some response =>
    match response.getField "errors" with
    | some (.arr (first :: _)) =>
      match first.getField "code" with
      | some (.str c) => some c
      | _ => none
    | _ => none
  | none => none

/-- The response-handling tail of `UpsRateClient.getRates` (after the token
fetch, request building and transport call, which are modelled by their
outcome `status`/`body`): status branching into the error taxonomy, else
delegation to `parseUpsRateResponse`. -/
def upsGetRatesHandleResponse (status : Nat) (body : Json) :
    Except CarrierIntegrationError RateResponse :=
  if status = 401 then
    .error { code := .AUTH_TOKEN_EXPIRED
             message := "UPS rate request unauthorized (401); token may have expired"
             statusCode := some 401, carrierCode := none, context := [] }
  else if status = 429 then
    .error { code := .RATE_LIMITED
             message := "UPS rate limited (429)"
             statusCode := some 429, carrierCode := none, context := [] }
  else if 400 ≤ status then
    .error { code := .CARRIER_ERROR
             message := "UPS rate request failed: HTTP " ++ toString status
             statusCode := some status
             carrierCode := tryGetCarrierErrorCode body
             context := [("body", body)] }
  else
    parseUpsRateResponse body "ups"

/-! ## OAuth token cache (`auth/ups-oauth.ts`) -/

structure TokenResult where
  accessToken : String
  expiresInSeconds : Int
deriving DecidableEq

structure CachedToken where
  accessToken : String
  expiresAtMs : Int
deriving DecidableEq

/-- `UpsOAuthTokenResponseSchema`: `access_token` a non-empty string,
`expires_in` an optional positive integer number defaulting to 3600,
`token_type` an optional string. -/
def UpsOAuthTokenResponseSchema (j : Json) : Option TokenResult :=
  match j with
  | .obj _ => do
    let accessToken ←
      match j.getField "access_token" with
      | some (.str s) => if 1 ≤ s.length then some s else none
      | _ => none
    let expiresIn ←
      match j.getField "expires_in" with
      | none => some (3600 : Int)
      | some (.num q) => if q.den = 1 ∧ 0 < q then some q.num else none
      | some _ => none
    let _ ← optField j "token_type" Json.asString
    some { accessToken := accessToken, expiresInSeconds := expiresIn }
  | _ => none

/-- Outcome of one transport call: either a response, or a thrown transport
exception (with whether it was an `Error` instance, its `name` and its
`message`). -/
inductive TransportOutcome where
  | response (status : Nat) (body : Json)
  | exception (isError : Bool) (name : String) (message : String)

/-- `UpsOAuthClient.requestToken`, as a function of the transport call's
outcome (the request construction — URL, Basic auth header, form body — does
not affect the result value and is abstracted to the `url` kept for error
context). -/
def requestToken (url : String) (outcome : TransportOutcome) :
    Except CarrierIntegrationError TokenResult :=
  match outcome with
  | .response status body =>
    if status = 401 then
      .error { code := .AUTH_FAILED
               message := "UPS OAuth: invalid client credentials (401)"
               statusCode := some 401, carrierCode := none
               context := [("url", .str url)] }
    else if status = 429 then
      .error { code := .RATE_LIMITED
               message := "UPS OAuth: rate limited (429)"
               statusCode := some 429, carrierCode := none
               context := [("url", .str url)] }
    else if status < 200 ∨ 300 ≤ status then
      .error { code := .AUTH_FAILED
               message := "UPS OAuth failed: HTTP " ++ toString status
               statusCode := some status, carrierCode := none
               context := [("url", .str url), ("body", body)] }
    else
      match UpsOAuthTokenResponseSchema body with
      | none =>
        .error { code := .MALFORMED_RESPONSE
                 message := "UPS OAuth: invalid response"
                 statusCode := some status, carrierCode := none
                 context := [("body", body)] }
      | some r => .ok r
  | .exception isError name msg =>
    let message := if isError then msg else "Unknown error during OAuth"
    let isTimeout := isError && (name == "AbortError" || strContains message "abort")
    .error { code := if isTimeout then .TIMEOUT else .NETWORK_ERROR
             message := "UPS OAuth: " ++ message
             statusCode := none, carrierCode := none
             context := [("url", .str url)] }

/-- Result of one `getValidToken()` call: the returned token or error, the
cache state after the call, and how many acquisition calls went to the
transport interface during this call. -/
structure TokenCallResult where
  result : Except CarrierIntegrationError String
  cached : Option CachedToken
  calls : Nat

/-- The acquisition arm of `getValidToken`: one `requestToken` call; on
success the cache is replaced wholesale with expiry
`now + expiresInSeconds * 1000`, on failure the error propagates and the
cache keeps its previous value (the source assigns `this.cached` only after
the `await` succeeds). -/
def oauthAcquireStep (now : Int)
    (acquire : Except CarrierIntegrationError TokenResult)
    (oldCached : Option CachedToken) : TokenCallResult :=
  match acquire with
  | .ok r =>
    { result := .ok r.accessToken
      cached := some { accessToken := r.accessToken
                       expiresAtMs := now + r.expiresInSeconds * 1000 }
      calls := 1 }
  | .error e => { result := .error e, cached := oldCached, calls := 1 }

/-- `UpsOAuthClient.getValidToken`, with the mutable field `this.cached`
passed explicitly and `Date.now()` as the argument `now`; `acquire` is the
outcome the single `requestToken()` call would have. -/
def getValidToken (refreshBufferMs now : Int)
    (acquire : Except CarrierIntegrationError TokenResult)
    (cached : Option CachedToken) : TokenCallResult :=
  match cached with
  | some c =>
    if c.expiresAtMs - refreshBufferMs > now then
      { result := .ok c.accessToken, cached := some c, calls := 0 }
    else oauthAcquireStep now acquire cached
  | none => oauthAcquireStep now acquire cached

/-! ## Dispatcher error wrapping (`service.js`) -/

/-- Outcome of `carrier.execute(...)` inside `CarrierIntegrationService.getRates`:
success, a thrown `CarrierIntegrationError`, or any other thrown value
(with whether it was an `Error` instance and its message). -/
inductive CarrierOutcome where
  | ok (result : RateResponse)
  | structuredFailure (e : CarrierIntegrationError)
  | foreignFailure (isError : Bool) (message : String)

/-- The try/catch around the carrier call in
`CarrierIntegrationService.getRates`: a `CarrierIntegrationError` is re-thrown
unchanged, anything else is wrapped as `UNKNOWN` with the original `Error`
message (or the fallback text for non-`Error` throwables). -/
def serviceGetRatesWrap (outcome : CarrierOutcome) :
    Except CarrierIntegrationError RateResponse :=
  match outcome with
  | .ok r => .ok r
  | .structuredFailure e => .error e
  | .foreignFailure isError msg =>
    .error { code := .UNKNOWN
             message := if isError then msg else "Carrier request failed"
             statusCode := none, carrierCode := none, context := [] }

/-! ## UPS wire mapper: request side (`toUpsPackage`) -/

structure UpsUnitOfMeasurement where
  Code : String
deriving DecidableEq

structure UpsDimensions where
  UnitOfMeasurement : UpsUnitOfMeasurement
  Length : String
  Width : String
  Height : String
deriving DecidableEq

structure UpsPackageWeight where
  UnitOfMeasurement : UpsUnitOfMeasurement
  Weight : String
deriving DecidableEq

structure UpsPackage where
  Packaging : UpsUnitOfMeasurement
  Dimensions : Option UpsDimensions
  PackageWeight : UpsPackageWeight
deriving DecidableEq

/-- Models JS `String(number)` on the finite decimals in scope. -/
def ratToWireString (q : ℚ) : String := toString q

/-- `toUpsPackage` from `ups-rate.ts`: always a weight block; a dimensions
block only when length, width and height are all present. -/
def toUpsPackage (pkg : Package) : UpsPackage :=
  let dimUnit := if pkg.dimensionUnit = "CM" then "CM" else "IN"
  let weightUnit := if pkg.weightUnit = "KGS" then "KGS" else "LBS"
  let base : UpsPackage :=
    { Packaging := { Code := "02" }
      Dimensions := none
      PackageWeight := { UnitOfMeasurement := { Code := weightUnit }
                         Weight := ratToWireString pkg.weight } }
  match pkg.length, pkg.width, pkg.height with
  | some l, some w, some h =>
    { base with
      Dimensions := some { UnitOfMeasurement := { Code := dimUnit }
                           Length := ratToWireString l
                           Width := ratToWireString w
                           Height := ratToWireString h } }
  | _, _, _ => base

/-! ## Synthetic success bodies (round-trip property) -/

/-- String-level fields of a quote used to build a synthetic carrier body. -/
structure SyntheticQuote where
  serviceCode : String
  serviceName : String
  totalCharge : String
  currencyCode : String
  transitDays : String
deriving DecidableEq

/-- Modelled from the spec: `buildSyntheticSuccessBody` has no definition
under `src/` (the test suite builds such payloads literally); following the
spec's words it is a body with the carrier's success status sentinel and one
rated-shipment element per quote, carrying the quote's string fields. -/
def syntheticShipment (q : SyntheticQuote) : Json :=
  .obj [("Service", .obj [("Code", .str q.serviceCode), ("Name", .str q.serviceName)]),
        ("TotalCharges", .obj [("MonetaryValue", .str q.totalCharge),
                               ("CurrencyCode", .str q.currencyCode)]),
        ("GuaranteedDelivery", .obj [("BusinessDaysInTransit", .str q.transitDays)])]

/-- Modelled from the spec: the synthetic success body (status code "1",
rated shipments in the order of the given quotes). -/
def buildSyntheticSuccessBody (qs : List SyntheticQuote) : Json :=
  .obj [("RateResponse",
    .obj [("Response", .obj [("ResponseStatus",
            .obj [("Code", .str "1"), ("Description", .str "Success")])]),
          ("RatedShipment", .arr (qs.map syntheticShipment))])]

/-- The validated form of `syntheticShipment q` under the response schema. -/
def syntheticParsedShipment (q : SyntheticQuote) : UpsRatedShipment :=
  { Service := some { Code := some q.serviceCode, Name := some q.serviceName }
    TotalCharges := some { MonetaryValue := some q.totalCharge
                           CurrencyCode := some q.currencyCode }
    GuaranteedDelivery := some { BusinessDaysInTransit := some q.transitDays } }

/-- Well-formedness of the strings of a synthetic quote: non-empty and
numerically parsable, as the round-trip property assumes. -/
def wellFormedSyntheticQuote (q : SyntheticQuote) : Prop :=
  q.totalCharge ≠ "" ∧ (jsParseFloat q.totalCharge).isSome = true ∧
  q.transitDays ≠ "" ∧ (jsParseInt q.transitDays).isSome = true

/-- Field-for-field correspondence between an input synthetic quote and an
output `RateQuote`: same service code, name and currency, and the numeric
fields are exactly the parses of the input strings. -/
def syntheticMatches (q : SyntheticQuote) (out : RateQuote) : Prop :=
  out.serviceCode = q.serviceCode ∧
  out.serviceName = q.serviceName ∧
  jsParseFloat q.totalCharge = some out.totalCharge ∧
  out.currencyCode = q.currencyCode ∧
  ∃ n, jsParseInt q.transitDays = some n ∧ out.transitDays = some n

/-- Concrete body whose single rated shipment carries a negative monetary
value. -/
def negativeChargeBody : Json :=
  .obj [("RateResponse",
    .obj [("Response", .obj [("ResponseStatus", .obj [("Code", .str "1")])]),
          ("RatedShipment", .arr [
            .obj [("Service", .obj [("Code", .str "03"), ("Name", .str "Ground")]),
                  ("TotalCharges", .obj [("MonetaryValue", .str "-5.00"),
                                         ("CurrencyCode", .str "USD")])]])])]

/-- Concrete package input carrying a length but no width/height. -/
def mixedDimsPackageJson : Json :=
  .obj [("weight", .num 1), ("length", .num 5)]

/-- Sample quote fields used as concrete inputs: UPS Ground, $12.50, 3 days. -/
def sampleSyntheticQuote : SyntheticQuote :=
  { serviceCode := "03", serviceName := "Ground", totalCharge := "12.50",
    currencyCode := "USD", transitDays := "3" }

/-- Per-shipment hypothesis for the amended numeric claim: the monetary and
transit-day strings, when present, do not start with a minus sign. -/
def shipmentNonNegStrings (s : UpsRatedShipment) : Prop :=
  (∀ t, s.TotalCharges.bind UpsTotalCharges.MonetaryValue = some t →
     hasLeadingMinus t = false) ∧
  (∀ t, s.GuaranteedDelivery.bind UpsGuaranteedDelivery.BusinessDaysInTransit = some t →
     hasLeadingMinus t = false)

/-! ## Helper lemmas -/

theorem jsMagnitude_nonneg (intDs fracDs : List Char) : 0 ≤ jsMagnitude intDs fracDs := by
  unfold jsMagnitude
  have h1 : (0 : ℚ) ≤ (digitsToNat intDs : ℚ) := by positivity
  have h2 : (0 : ℚ) ≤ (digitsToNat fracDs : ℚ) / ((10 : ℚ) ^ fracDs.length) := by positivity
  linarith

theorem jsParseFloat_nonneg (s : String) (q : ℚ)
    (hm : hasLeadingMinus s = false) (hp : jsParseFloat s = some q) : 0 ≤ q := by
  unfold hasLeadingMinus at hm
  unfold jsParseFloat at hp
  simp only [] at hp
  split at hp
  · exact absurd hp (by simp)
  · rw [Option.some_inj] at hp
    rw [hm] at hp
    simp only [Bool.false_eq_true, if_false] at hp
    exact hp ▸ jsMagnitude_nonneg _ _

theorem jsParseInt_nonneg (s : String) (n : Int)
    (hm : hasLeadingMinus s = false) (hp : jsParseInt s = some n) : 0 ≤ n := by
  unfold hasLeadingMinus at hm
  unfold jsParseInt at hp
  simp only [] at hp
  split at hp
  · exact absurd hp (by simp)
  · rw [Option.some_inj] at hp
    rw [hm] at hp
    simp only [Bool.false_eq_true, if_false] at hp
    exact hp ▸ Int.ofNat_nonneg _

/-- Shape of a successful parse: the body passed schema validation, had a
`RateResponse` member, no failing status, and the quotes are the mapped
rated shipments in order. -/
theorem parse_ok_quotes_shape (body : Json) (carrierId : String) (r : RateResponse)
    (h : parseUpsRateResponse body carrierId = .ok r) :
    ∃ parsed rateResponse, UpsRateResponseSchema body = some parsed ∧
      parsed.RateResponse = some rateResponse ∧
      failingStatusCode (rateResponse.Response.bind UpsResponse.ResponseStatus) = none ∧
      r = { quotes := (rateResponse.RatedShipment.getD []).map (upsQuoteOfShipment carrierId)
            requestId := none } := by
  unfold parseUpsRateResponse at h
  split at h
  · exact absurd h (by simp)
  next parsed hschema =>
    split at h
    · exact absurd h (by simp)
    next rateResponse hrr =>
      split at h
      · exact absurd h (by simp)
      next hstatus =>
        refine ⟨parsed, rateResponse, hschema, hrr, hstatus, ?_⟩
        exact (Except.ok.injEq _ _ ▸ h.symm)

/-! ## Claim theorems -/

/-- C1: `getValidToken` returns the cached token with no transport call when
the stored expiry minus the refresh buffer is strictly in the future;
otherwise it performs exactly one acquisition, stores the new token with
expiry `now + expiresInSeconds * 1000` before returning it; and two
sequential calls within the refresh-buffer window perform exactly one
acquisition in total. -/
theorem getValidToken_cache_correct (refreshBufferMs now now2 : Int)
    (cached : Option CachedToken)
    (acquire acquire2 : Except CarrierIntegrationError TokenResult) :
    (∀ c, cached = some c → c.expiresAtMs - refreshBufferMs > now →
      getValidToken refreshBufferMs now acquire cached =
        { result := .ok c.accessToken, cached := some c, calls := 0 }) ∧
    (∀ r, acquire = .ok r →
      (cached = none ∨ ∃ c, cached = some c ∧ ¬(c.expiresAtMs - refreshBufferMs > now)) →
      getValidToken refreshBufferMs now acquire cached =
        { result := .ok r.accessToken
          cached := some { accessToken := r.accessToken
                           expiresAtMs := now + r.expiresInSeconds * 1000 }
          calls := 1 }) ∧
    (∀ r, acquire = .ok r →
      now + r.expiresInSeconds * 1000 - refreshBufferMs > now2 →
      (getValidToken refreshBufferMs now acquire none).calls +
        (getValidToken refreshBufferMs now2 acquire2
          (getValidToken refreshBufferMs now acquire none).cached).calls = 1) := by
  refine ⟨?_, ?_, ?_⟩
  · intro c hc hfresh
    subst hc
    simp [getValidToken, hfresh]
  · intro r hr hstale
    subst hr
    rcases hstale with hnone | ⟨c, hc, hnot⟩
    · subst hnone
      simp [getValidToken, oauthAcquireStep]
    · subst hc
      simp [getValidToken, hnot, oauthAcquireStep]
  · intro r hr hwindow
    subst hr
    simp [getValidToken, oauthAcquireStep, hwindow]

/-- C1 witness: first call on an empty cache acquires and stores the token;
a second call 1000 seconds later (within the hour minus the 60-second
buffer) reuses it with no acquisition call. -/
theorem getValidToken_cache_correct_witness :
    getValidToken 60000 0 (.ok { accessToken := "tok", expiresInSeconds := 3600 }) none =
      { result := .ok "tok"
        cached := some { accessToken := "tok", expiresAtMs := 3600000 }
        calls := 1 } ∧
    (getValidToken 60000 0 (.ok { accessToken := "tok", expiresInSeconds := 3600 }) none).calls +
      (getValidToken 60000 1000000 (.ok { accessToken := "tok2", expiresInSeconds := 3600 })
        (getValidToken 60000 0 (.ok { accessToken := "tok", expiresInSeconds := 3600 }) none).cached).calls
      = 1 := by
  have h := getValidToken_cache_correct 60000 0 1000000 none
    (.ok { accessToken := "tok", expiresInSeconds := 3600 })
    (.ok { accessToken := "tok2", expiresInSeconds := 3600 })
  refine ⟨?_, h.2.2 _ rfl (by decide)⟩
  have h2 := h.2.1 { accessToken := "tok", expiresInSeconds := 3600 } rfl (Or.inl rfl)
  simpa using h2

/-- C5: the rate client's status branching — 401 becomes AUTH_TOKEN_EXPIRED
with status 401, 429 becomes RATE_LIMITED, any other status ≥ 400 becomes
CARRIER_ERROR carrying the status and the best-effort carrier error code,
and any status < 400 is delegated to `parseUpsRateResponse`. -/
theorem upsGetRates_status_branching (status : Nat) (body : Json) :
    (status = 401 → upsGetRatesHandleResponse status body =
      .error { code := .AUTH_TOKEN_EXPIRED
               message := "UPS rate request unauthorized (401); token may have expired"
               statusCode := some 401, carrierCode := none, context := [] }) ∧
    (status = 429 → upsGetRatesHandleResponse status body =
      .error { code := .RATE_LIMITED
               message := "UPS rate limited (429)"
               statusCode := some 429, carrierCode := none, context := [] }) ∧
    (status ≠ 401 → status ≠ 429 → 400 ≤ status →
      upsGetRatesHandleResponse status body =
        .error { code := .CARRIER_ERROR
                 message := "UPS rate request failed: HTTP " ++ toString status
                 statusCode := some status
                 carrierCode := tryGetCarrierErrorCode body
                 context := [("body", body)] }) ∧
    (status < 400 →
      upsGetRatesHandleResponse status body = parseUpsRateResponse body "ups") := by
  refine ⟨?_, ?_, ?_, ?_⟩
  · intro h; subst h; simp [upsGetRatesHandleResponse]
  · intro h; subst h; simp [upsGetRatesHandleResponse]
  · intro h401 h429 h400
    simp [upsGetRatesHandleResponse, h401, h429, h400]
  · intro hlt
    have h401 : status ≠ 401 := by omega
    have h429 : status ≠ 429 := by omega
    have h400 : ¬(400 ≤ status) := by omega
    simp [upsGetRatesHandleResponse, h401, h429, h400]

/-- C5 witness: the scenario from the spec — HTTP 400 with a carrier error
body yields CARRIER_ERROR with status 400 and carrier code
"INVALID_REQUEST"; HTTP 401 yields AUTH_TOKEN_EXPIRED with status 401. -/
theorem upsGetRates_status_branching_witness :
    upsGetRatesHandleResponse 400
      (.obj [("response", .obj [("errors", .arr [.obj [("code", .str "INVALID_REQUEST")]])])]) =
      .error { code := .CARRIER_ERROR
               message := "UPS rate request failed: HTTP 400"
               statusCode := some 400
               carrierCode := some "INVALID_REQUEST"
               context := [("body",
                 .obj [("response", .obj [("errors", .arr [.obj [("code", .str "INVALID_REQUEST")]])])])] } ∧
    upsGetRatesHandleResponse 401 (.obj []) =
      .error { code := .AUTH_TOKEN_EXPIRED
               message := "UPS rate request unauthorized (401); token may have expired"
               statusCode := some 401, carrierCode := none, context := [] } := by
  constructor
  · have h := (upsGetRates_status_branching 400
      (.obj [("response", .obj [("errors", .arr [.obj [("code", .str "INVALID_REQUEST")]])])])).2.2.1
      (by decide) (by decide) (by decide)
    rw [h]
    rfl
  · exact (upsGetRates_status_branching 401 (.obj [])).1 rfl

/-- C6: the token acquisition's failure taxonomy — 401 → AUTH_FAILED, 429 →
RATE_LIMITED, other non-2xx → AUTH_FAILED with the status attached, 2xx body
failing schema validation → MALFORMED_RESPONSE, an abort-style transport
exception → TIMEOUT, any other transport exception → NETWORK_ERROR, and a
2xx body passing validation succeeds; every outcome is a
`CarrierIntegrationError`, so no raw transport or parsing exception escapes. -/
theorem requestToken_failure_mapping (url : String) :
    (∀ body, requestToken url (.response 401 body) =
      .error { code := .AUTH_FAILED
               message := "UPS OAuth: invalid client credentials (401)"
               statusCode := some 401, carrierCode := none
               context := [("url", .str url)] }) ∧
    (∀ body, requestToken url (.response 429 body) =
      .error { code := .RATE_LIMITED
               message := "UPS OAuth: rate limited (429)"
               statusCode := some 429, carrierCode := none
               context := [("url", .str url)] }) ∧
    (∀ status body, status ≠ 401 → status ≠ 429 → (status < 200 ∨ 300 ≤ status) →
      requestToken url (.response status body) =
        .error { code := .AUTH_FAILED
                 message := "UPS OAuth failed: HTTP " ++ toString status
                 statusCode := some status, carrierCode := none
                 context := [("url", .str url), ("body", body)] }) ∧
    (∀ status body, 200 ≤ status → status < 300 →
      UpsOAuthTokenResponseSchema body = none →
      requestToken url (.response status body) =
        .error { code := .MALFORMED_RESPONSE
                 message := "UPS OAuth: invalid response"
                 statusCode := some status, carrierCode := none
                 context := [("body", body)] }) ∧
    (∀ status body r, 200 ≤ status → status < 300 →
      UpsOAuthTokenResponseSchema body = some r →
      requestToken url (.response status body) = .ok r) ∧
    (∀ name msg, (name == "AbortError" || strContains msg "abort") = true →
      requestToken url (.exception true name msg) =
        .error { code := .TIMEOUT
                 message := "UPS OAuth: " ++ msg
                 statusCode := none, carrierCode := none
                 context := [("url", .str url)] }) ∧
    (∀ isError name msg,
      (isError && (name == "AbortError" ||
        strContains (if isError then msg else "Unknown error during OAuth") "abort")) = false →
      ∃ e, requestToken url (.exception isError name msg) = .error e ∧
        e.code = .NETWORK_ERROR) := by
  refine ⟨?_, ?_, ?_, ?_, ?_, ?_, ?_⟩
  · intro body; simp [requestToken]
  · intro body; simp [requestToken]
  · intro status body h401 h429 hout
    have h1 : status < 200 ∨ 300 ≤ status := hout
    simp [requestToken, h401, h429, h1]
  · intro status body hlo hhi hschema
    have h401 : status ≠ 401 := by omega
    have h429 : status ≠ 429 := by omega
    have hin : ¬(status < 200 ∨ 300 ≤ status) := by omega
    simp [requestToken, h401, h429, hin, hschema]
  · intro status body r hlo hhi hschema
    have h401 : status ≠ 401 := by omega
    have h429 : status ≠ 429 := by omega
    have hin : ¬(status < 200 ∨ 300 ≤ status) := by omega
    simp [requestToken, h401, h429, hin, hschema]
  · intro name msg habort
    simp [requestToken, habort]
  · intro isError name msg hnot
    refine ⟨_, rfl, ?_⟩
    simp [requestToken, hnot]

/-- C6 witness: a 500 response yields AUTH_FAILED carrying status 500, a 2xx
body without `access_token` yields MALFORMED_RESPONSE, an AbortError yields
TIMEOUT, and a plain network error yields NETWORK_ERROR. -/
theorem requestToken_failure_mapping_witness :
    requestToken "https://auth.example.com/token" (.response 500 (.obj [])) =
      .error { code := .AUTH_FAILED
               message := "UPS OAuth failed: HTTP 500"
               statusCode := some 500, carrierCode := none
               context := [("url", .str "https://auth.example.com/token"),
                           ("body", .obj [])] } ∧
    requestToken "https://auth.example.com/token" (.response 200 (.obj [])) =
      .error { code := .MALFORMED_RESPONSE
               message := "UPS OAuth: invalid response"
               statusCode := some 200, carrierCode := none
               context := [("body", .obj [])] } ∧
    requestToken "https://auth.example.com/token" (.exception true "AbortError" "aborted") =
      .error { code := .TIMEOUT
               message := "UPS OAuth: aborted"
               statusCode := none, carrierCode := none
               context := [("url", .str "https://auth.example.com/token")] } ∧
    ∃ e, requestToken "https://auth.example.com/token"
        (.exception true "TypeError" "fetch failed") = .error e ∧
      e.code = .NETWORK_ERROR := by
  have h := requestToken_failure_mapping "https://auth.example.com/token"
  exact ⟨h.2.2.1 500 (.obj []) (by decide) (by decide) (by omega),
         h.2.2.2.1 200 (.obj []) (by omega) (by omega) rfl,
         h.2.2.2.2.2.1 "AbortError" "aborted" (by decide),
         h.2.2.2.2.2.2 true "TypeError" "fetch failed" (by decide)⟩

/-- C8: the dispatcher's error normalization — a `CarrierIntegrationError`
raised by the carrier client propagates to the caller unchanged (same kind,
message, status, carrier code and context), and any other exception is
wrapped as UNKNOWN, preserving the original message when the throwable was an
`Error`. -/
theorem serviceGetRates_error_wrapping :
    (∀ e, serviceGetRatesWrap (.structuredFailure e) = .error e) ∧
    (∀ msg, serviceGetRatesWrap (.foreignFailure true msg) =
      .error { code := .UNKNOWN, message := msg
               statusCode := none, carrierCode := none, context := [] }) ∧
    (∀ isError msg, ∃ e, serviceGetRatesWrap (.foreignFailure isError msg) = .error e ∧
      e.code = .UNKNOWN) := by
  refine ⟨fun e => rfl, fun msg => by simp [serviceGetRatesWrap], ?_⟩
  intro isError msg
  exact ⟨_, rfl, rfl⟩

/-- C2: numeric safety of the per-shipment conversion — an absent, empty or
unparsable `MonetaryValue` yields `totalCharge = 0` (never `NaN`: the charge
is a total rational and a failed parse is replaced by `0`); an absent, empty
or unparsable `BusinessDaysInTransit` omits `transitDays` entirely; an absent
`CurrencyCode` defaults to `"USD"`. -/
theorem quote_numeric_safety (carrierId : String) (s : UpsRatedShipment) :
    ((s.TotalCharges.bind UpsTotalCharges.MonetaryValue = none ∨
      s.TotalCharges.bind UpsTotalCharges.MonetaryValue = some "" ∨
      (∃ t, s.TotalCharges.bind UpsTotalCharges.MonetaryValue = some t ∧
        jsParseFloat t = none)) →
      (upsQuoteOfShipment carrierId s).totalCharge = 0) ∧
    ((s.GuaranteedDelivery.bind UpsGuaranteedDelivery.BusinessDaysInTransit = none ∨
      s.GuaranteedDelivery.bind UpsGuaranteedDelivery.BusinessDaysInTransit = some "" ∨
      (∃ t, s.GuaranteedDelivery.bind UpsGuaranteedDelivery.BusinessDaysInTransit = some t ∧
        jsParseInt t = none)) →
      (upsQuoteOfShipment carrierId s).transitDays = none) ∧
    (s.TotalCharges.bind UpsTotalCharges.CurrencyCode = none →
      (upsQuoteOfShipment carrierId s).currencyCode = "USD") := by
  refine ⟨?_, ?_, ?_⟩
  · rintro (h | h | ⟨t, h, hpf⟩)
    · simp [upsQuoteOfShipment, h]
    · simp [upsQuoteOfShipment, h]
    · by_cases ht : t = ""
      · subst ht; simp [upsQuoteOfShipment, h]
      · simp [upsQuoteOfShipment, h, ht, hpf]
  · rintro (h | h | ⟨t, h, hpi⟩)
    · simp [upsQuoteOfShipment, h]
    · simp [upsQuoteOfShipment, h]
    · by_cases ht : t = ""
      · subst ht; simp [upsQuoteOfShipment, h]
      · simp [upsQuoteOfShipment, h, ht, hpi]
  · intro h
    simp [upsQuoteOfShipment, h]

/-- C2 witness: a shipment with unparsable monetary value "abc", empty
transit days and no currency code yields charge 0, no transit days, and
currency "USD". -/
theorem quote_numeric_safety_witness :
    (upsQuoteOfShipment "ups"
      { Service := none
        TotalCharges := some { MonetaryValue := some "abc", CurrencyCode := none }
        GuaranteedDelivery := some { BusinessDaysInTransit := some "" } }).totalCharge = 0 ∧
    (upsQuoteOfShipment "ups"
      { Service := none
        TotalCharges := some { MonetaryValue := some "abc", CurrencyCode := none }
        GuaranteedDelivery := some { BusinessDaysInTransit := some "" } }).transitDays = none ∧
    (upsQuoteOfShipment "ups"
      { Service := none
        TotalCharges := some { MonetaryValue := some "abc", CurrencyCode := none }
        GuaranteedDelivery := some { BusinessDaysInTransit := some "" } }).currencyCode = "USD" := by
  have h := quote_numeric_safety "ups"
    { Service := none
      TotalCharges := some { MonetaryValue := some "abc", CurrencyCode := none }
      GuaranteedDelivery := some { BusinessDaysInTransit := some "" } }
  exact ⟨h.1 (Or.inr (Or.inr ⟨"abc", rfl, rfl⟩)), h.2.1 (Or.inr (Or.inl rfl)), h.2.2 rfl⟩

/-- C9: a body passing the schema with a `RateResponse` member, no failing
carrier status code, and an absent (or empty) `RatedShipment` array parses
successfully to zero quotes rather than failing with MALFORMED_RESPONSE. -/
theorem parse_missing_rated_shipment (body : Json) (carrierId : String)
    (parsed : UpsRateResponseTop) (rateResponse : UpsRateResponseBody)
    (hschema : UpsRateResponseSchema body = some parsed)
    (hrr : parsed.RateResponse = some rateResponse)
    (hstatus : failingStatusCode (rateResponse.Response.bind UpsResponse.ResponseStatus) = none)
    (hships : rateResponse.RatedShipment = none ∨ rateResponse.RatedShipment = some []) :
    parseUpsRateResponse body carrierId = .ok { quotes := [], requestId := none } := by
  rcases hships with h | h <;>
    simp [parseUpsRateResponse, hschema, hrr, hstatus, h]

/-- C9 witness: the body with an empty `RateResponse` wrapper (the test
suite's `{ RateResponse: {} }` case) parses to zero quotes. -/
theorem parse_missing_rated_shipment_witness :
    parseUpsRateResponse (.obj [("RateResponse", .obj [])]) "ups" =
      .ok { quotes := [], requestId := none } :=
  parse_missing_rated_shipment (.obj [("RateResponse", .obj [])]) "ups"
    { RateResponse := some { Response := none, RatedShipment := none } }
    { Response := none, RatedShipment := none }
    rfl rfl rfl (Or.inl rfl)

/-- C10: every quote produced by the parse step has `carrierServiceId`
present and equal to `serviceCode` (both are the same `code`, including the
"UNKNOWN" sentinel). -/
theorem parse_carrierServiceId_eq_serviceCode (body : Json) (carrierId : String)
    (r : RateResponse) (h : parseUpsRateResponse body carrierId = .ok r) :
    ∀ q ∈ r.quotes, q.carrierServiceId = some q.serviceCode := by
  obtain ⟨parsed, rateResponse, _, _, _, hreq⟩ := parse_ok_quotes_shape body carrierId r h
  subst hreq
  intro q hq
  simp only [List.mem_map] at hq
  obtain ⟨s, _, hs⟩ := hq
  subst hs
  rfl

/-- C10 witness: a shipment with no service block yields the "UNKNOWN"
sentinel in both `serviceCode` and `carrierServiceId`. -/
theorem parse_carrierServiceId_witness :
    (upsQuoteOfShipment "ups"
        { Service := none, TotalCharges := none, GuaranteedDelivery := none }).carrierServiceId =
      some (upsQuoteOfShipment "ups"
        { Service := none, TotalCharges := none, GuaranteedDelivery := none }).serviceCode := by
  have h := parse_carrierServiceId_eq_serviceCode
    (.obj [("RateResponse", .obj [("RatedShipment", .arr [.obj []])])]) "ups"
    { quotes := [upsQuoteOfShipment "ups"
        { Service := none, TotalCharges := none, GuaranteedDelivery := none }]
      requestId := none }
    rfl
  exact h _ (List.mem_cons_self _ _)

/-- C3 counterexample: the package `{ weight: 1, length: 5 }` — carrying one
of the three dimensions but not the other two — is accepted by the domain
validation, so the claim that such packages are rejected as a validation
failure is false. -/
theorem packageSchema_partial_dims_counterexample :
    PackageSchema mixedDimsPackageJson =
      some { weight := 1, weightUnit := "LBS", length := some 5, width := none,
             height := none, dimensionUnit := "IN" } ∧
    ¬ (∀ j pkg, PackageSchema j = some pkg →
        ((pkg.length = none ∧ pkg.width = none ∧ pkg.height = none) ∨
         (pkg.length ≠ none ∧ pkg.width ≠ none ∧ pkg.height ≠ none))) := by
  have hp : PackageSchema mixedDimsPackageJson =
      some { weight := 1, weightUnit := "LBS", length := some 5, width := none,
             height := none, dimensionUnit := "IN" } := by decide
  refine ⟨hp, ?_⟩
  intro hall
  have h := hall mixedDimsPackageJson _ hp
  simp at h

/-- C3 amended: the domain validation places no joint constraint on the
three dimension fields (a package with only some of them is accepted, see
the counterexample); instead the wire mapper emits a `Dimensions` block
exactly when length, width and height are all present, silently omitting
partial dimensions from the carrier request. -/
theorem package_dims_validation_amended :
    (PackageSchema mixedDimsPackageJson).isSome = true ∧
    ∀ pkg : Package, ((toUpsPackage pkg).Dimensions.isSome = true ↔
      (pkg.length.isSome = true ∧ pkg.width.isSome = true ∧ pkg.height.isSome = true)) := by
  refine ⟨by decide, ?_⟩
  intro pkg
  cases hl : pkg.length <;> cases hw : pkg.width <;> cases hh : pkg.height <;>
    simp [toUpsPackage, hl, hw, hh]

/-- Per-shipment non-negativity under sign-free numeric strings. -/
theorem upsQuoteOfShipment_nonneg (carrierId : String) (s : UpsRatedShipment)
    (hs : shipmentNonNegStrings s) :
    0 ≤ (upsQuoteOfShipment carrierId s).totalCharge ∧
    ∀ d, (upsQuoteOfShipment carrierId s).transitDays = some d → 0 ≤ d := by
  constructor
  · cases hmv : s.TotalCharges.bind UpsTotalCharges.MonetaryValue with
    | none => simp [upsQuoteOfShipment, hmv]
    | some t =>
      by_cases ht : t = ""
      · subst ht; simp [upsQuoteOfShipment, hmv]
      · cases hpf : jsParseFloat t with
        | none => simp [upsQuoteOfShipment, hmv, ht, hpf]
        | some v =>
          have hv := jsParseFloat_nonneg t v (hs.1 t hmv) hpf
          simpa [upsQuoteOfShipment, hmv, ht, hpf] using hv
  · intro d hd
    cases htd : s.GuaranteedDelivery.bind UpsGuaranteedDelivery.BusinessDaysInTransit with
    | none => simp [upsQuoteOfShipment, htd] at hd
    | some t =>
      by_cases ht : t = ""
      · subst ht; simp [upsQuoteOfShipment, htd] at hd
      · cases hpi : jsParseInt t with
        | none => simp [upsQuoteOfShipment, htd, ht, hpi] at hd
        | some n =>
          have hn := jsParseInt_nonneg t n (hs.2 t htd) hpi
          simp [upsQuoteOfShipment, htd, ht, hpi] at hd
          exact hd ▸ hn

/-- C4 counterexample: the claim that every produced quote has a
non-negative `totalCharge` is false — a carrier body whose rated shipment
carries `MonetaryValue: "-5.00"` parses successfully to a quote whose
`totalCharge` is negative. -/
theorem parse_negative_charge_counterexample :
    (parseUpsRateResponse negativeChargeBody "ups").toOption.map
        (fun r => r.quotes.map RateQuote.totalCharge) =
      some [-(jsMagnitude ['5'] ['0', '0'])] ∧
    -(jsMagnitude ['5'] ['0', '0']) < 0 := by
  constructor
  · rfl
  · have h5 : digitsToNat ['5'] = 5 := by decide
    have h0 : digitsToNat ['0', '0'] = 0 := by decide
    rw [jsMagnitude, h5, h0]
    norm_num

/-- C4 amended: every quote produced by the parse step has a totalCharge
that is a well-defined (never `NaN`) rational — `0` when the monetary field
is absent, empty or unparsable — and an integer `transitDays` when present;
both are non-negative whenever the carrier's monetary and transit-day
strings do not begin with a minus sign (unconstrained negative inputs pass
through, see the counterexample). -/
theorem parse_quotes_nonneg_amended (body : Json) (carrierId : String) (r : RateResponse)
    (h : parseUpsRateResponse body carrierId = .ok r)
    (hnn : ∀ parsed rateResponse, UpsRateResponseSchema body = some parsed →
      parsed.RateResponse = some rateResponse →
      ∀ s ∈ rateResponse.RatedShipment.getD [], shipmentNonNegStrings s) :
    ∀ q ∈ r.quotes, 0 ≤ q.totalCharge ∧ ∀ d, q.transitDays = some d → 0 ≤ d := by
  obtain ⟨parsed, rateResponse, hschema, hrr, _, hreq⟩ := parse_ok_quotes_shape body carrierId r h
  subst hreq
  intro q hq
  simp only [List.mem_map] at hq
  obtain ⟨s, hsmem, hs⟩ := hq
  subst hs
  exact upsQuoteOfShipment_nonneg carrierId s (hnn parsed rateResponse hschema hrr s hsmem)

/-- C4 witness: a body with monetary value "12.50" and transit days "3"
produces a quote with non-negative charge and transit days. -/
theorem parse_quotes_nonneg_amended_witness :
    0 ≤ (upsQuoteOfShipment "ups"
      { Service := none
        TotalCharges := some { MonetaryValue := some "12.50", CurrencyCode := none }
        GuaranteedDelivery := some { BusinessDaysInTransit := some "3" } }).totalCharge ∧
    ∀ d, (upsQuoteOfShipment "ups"
      { Service := none
        TotalCharges := some { MonetaryValue := some "12.50", CurrencyCode := none }
        GuaranteedDelivery := some { BusinessDaysInTransit := some "3" } }).transitDays =
          some d → 0 ≤ d := by
  have h := parse_quotes_nonneg_amended
    (.obj [("RateResponse", .obj [("RatedShipment", .arr [
      .obj [("TotalCharges", .obj [("MonetaryValue", .str "12.50")]),
            ("GuaranteedDelivery", .obj [("BusinessDaysInTransit", .str "3")])]])])])
    "ups"
    { quotes := [upsQuoteOfShipment "ups"
        { Service := none
          TotalCharges := some { MonetaryValue := some "12.50", CurrencyCode := none }
          GuaranteedDelivery := some { BusinessDaysInTransit := some "3" } }]
      requestId := none }
    rfl
    (by
      intro parsed rateResponse hp hrr s hsmem
      injection hp with hp'
      subst hp'
      simp only [Option.some.injEq] at hrr
      subst hrr
      simp only [Option.getD_some, List.mem_singleton] at hsmem
      subst hsmem
      refine ⟨?_, ?_⟩
      · intro t ht
        simp only [Option.some_bind, Option.some.injEq] at ht
        subst ht
        decide
      · intro t ht
        simp only [Option.some_bind, Option.some.injEq] at ht
        subst ht
        decide)
  exact h _ (List.mem_cons_self _ _)

/-- One synthetic shipment validates to its parsed form. -/
theorem syntheticShipment_schema (q : SyntheticQuote) :
    UpsRatedShipmentSchema (syntheticShipment q) = some (syntheticParsedShipment q) := rfl

/-- A list of synthetic shipments validates elementwise, preserving order. -/
theorem syntheticShipment_array_schema (qs : List SyntheticQuote) :
    optMapList UpsRatedShipmentSchema (qs.map syntheticShipment) =
      some (qs.map syntheticParsedShipment) := by
  induction qs with
  | nil => rfl
  | cons q rest ih =>
    simp [optMapList, syntheticShipment_schema, ih]

/-- The synthetic success body passes the response schema, yielding the
success status and the parsed shipments in order. -/
theorem buildSyntheticSuccessBody_schema (qs : List SyntheticQuote) :
    UpsRateResponseSchema (buildSyntheticSuccessBody qs) =
      some ⟨some ⟨some ⟨some ⟨some "1", some "Success"⟩⟩,
        some (qs.map syntheticParsedShipment)⟩⟩ := by
  simp [UpsRateResponseSchema, buildSyntheticSuccessBody, upsRateResponseBodySchema,
    upsResponseSchema, upsResponseStatusSchema, upsRatedShipmentArraySchema,
    optField, Json.getField, lookupPair, Json.asString, syntheticShipment_array_schema]

/-- Parsing a synthetic success body succeeds with the converted shipments
in order. -/
theorem parse_buildSyntheticSuccessBody (qs : List SyntheticQuote) :
    parseUpsRateResponse (buildSyntheticSuccessBody qs) "ups" =
      .ok { quotes := (qs.map syntheticParsedShipment).map (upsQuoteOfShipment "ups")
            requestId := none } := by
  simp [parseUpsRateResponse, buildSyntheticSuccessBody_schema, failingStatusCode]

/-- C7 round-trip: parsing the synthetic success body built from a list of
well-formed quotes yields a response whose quotes correspond to the inputs
field-for-field (service code, service name, charge, currency, transit days)
and in the same order. -/
theorem parse_build_roundtrip (qs : List SyntheticQuote)
    (hwf : ∀ q ∈ qs, wellFormedSyntheticQuote q) :
    ∃ r, parseUpsRateResponse (buildSyntheticSuccessBody qs) "ups" = .ok r ∧
      List.Forall₂ syntheticMatches qs r.quotes := by
  refine ⟨_, parse_buildSyntheticSuccessBody qs, ?_⟩
  simp only [List.map_map]
  rw [List.forall₂_map_right_iff, List.forall₂_same]
  intro q hq
  obtain ⟨h1, h2, h3, h4⟩ := hwf q hq
  obtain ⟨c, hc⟩ := Option.isSome_iff_exists.mp h2
  obtain ⟨n, hn⟩ := Option.isSome_iff_exists.mp h4
  refine ⟨rfl, rfl, ?_, rfl, n, hn, ?_⟩
  · simp [upsQuoteOfShipment, syntheticParsedShipment, h1, hc]
  · simp [upsQuoteOfShipment, syntheticParsedShipment, h3, hn]

/-- C7 witness: the Ground quote (code "03", $12.50, 3 days) survives the
round trip. -/
theorem parse_build_roundtrip_witness :
    (∀ q ∈ [sampleSyntheticQuote], wellFormedSyntheticQuote q) ∧
    ∃ r, parseUpsRateResponse (buildSyntheticSuccessBody [sampleSyntheticQuote]) "ups" =
        .ok r ∧
      List.Forall₂ syntheticMatches [sampleSyntheticQuote] r.quotes := by
  have hwf : ∀ q ∈ [sampleSyntheticQuote], wellFormedSyntheticQuote q := by
    intro q hq
    simp only [List.mem_singleton] at hq
    subst hq
    exact ⟨by decide, rfl, by decide, rfl⟩
  exact ⟨hwf, parse_build_roundtrip _ hwf⟩

end CarrierSpec
